/-
  Verification of the Prometheus metrics monitoring and notification system
  (src/main.py) against its natural-language specification.

  Shallow embedding notes:
  * Python exceptions are modelled with `Except Exn` / `Option Exn`; stateful
    methods of `PrometheusMetrics` become functions `MetricsState → ... →
    MetricsState × Option Exn` (Python mutations performed before an exception
    persist, so the state is returned even on error).
  * Python floats are idealised as rationals (ℚ); IEEE specials (NaN, inf)
    are outside the model.  All concrete values in the spec's test vectors
    are exactly representable, so this idealisation is faithful there.
  * The HTTP layer (`requests.get`) is an oracle: each call site receives an
    `HttpResult` describing the outcome of that request.  The Prometheus
    query expression strings are opaque to the program logic (they are only
    shipped to the backend), so they are not reproduced here.
  * SMTP, the filesystem, pandas/ExcelWriter and jinja2 are likewise oracles.
-/
import Mathlib

/-- Python exception classes that the embedded code can raise. -/
inductive Exn where
  | keyError
  | indexError
  | typeError
  | valueError
  | smtpError
  | osError
  | renderError
  deriving DecidableEq, Repr

/-- Parsed JSON documents, as returned by `response.json()`. -/
inductive Json where
  | null
  | bool (b : Bool)
  | num (q : ℚ)
  | str (s : String)
  | arr (elems : List Json)
  | obj (fields : List (String × Json))

/-- Python subscript `j[k]` for a string key: succeeds only on a JSON object
containing the key (KeyError if absent, TypeError on non-dicts). -/
def Json.getField : Json → String → Except Exn Json
  | .obj fields, k =>
    match fields.find? (fun kv => kv.1 = k) with
    | some kv => .ok kv.2
    | none => .error .keyError
  | _, _ => .error .typeError

/-- Python subscript `j[i]` for an integer index: list and string indexing
succeed in range; dicts raise KeyError (no such int key), the rest TypeError. -/
def Json.getIndex : Json → Nat → Except Exn Json
  | .arr elems, i =>
    match elems.get? i with
    | some e => .ok e
    | none => .error .indexError
  | .str s, i =>
    match s.data.get? i with
    | some c => .ok (.str (String.mk [c]))
    | none => .error .indexError
  | .obj _, _ => .error .keyError
  | _, _ => .error .typeError

/-- Python iteration over a JSON value (as done by `zip`/`for`): lists yield
elements, dicts yield their keys, strings yield 1-character strings, the
rest raise TypeError. -/
def Json.pyIter : Json → Except Exn (List Json)
  | .arr elems => .ok elems
  | .obj fields => .ok (fields.map (fun kv => Json.str kv.1))
  | .str s => .ok (s.data.map (fun c => Json.str (String.mk [c])))
  | _ => .error .typeError

/-- Numeric value of a run of decimal digit characters, if all are digits. -/
def digitsToNat (cs : List Char) : Option Nat :=
  if cs ≠ [] ∧ cs.all Char.isDigit then
    some (cs.foldl (fun a c => a * 10 + (c.toNat - 48)) 0)
  else none

/-- Value of an optional run of digits (empty list allowed, meaning 0),
paired with the number of digits; `none` if a non-digit appears. -/
def digitsToNatOpt (cs : List Char) : Option (Nat × Nat) :=
  if cs.all Char.isDigit then
    some (cs.foldl (fun a c => a * 10 + (c.toNat - 48)) 0, cs.length)
  else none

/-- Split a character list at the first occurrence of any of the given
characters, returning the parts before and after (the separator dropped). -/
def splitAtFirst (seps : List Char) : List Char → Option (List Char × List Char)
  | [] => none
  | c :: rest =>
    if seps.contains c then some ([], rest)
    else match splitAtFirst seps rest with
      | some (l, r) => some (c :: l, r)
      | none => none

/-- Sign prefix of a numeric literal: strips one leading `+` or `-`. -/
def parseSign : List Char → Bool × List Char
  | '-' :: rest => (true, rest)
  | '+' :: rest => (false, rest)
  | cs => (false, cs)

/-- The mantissa `digits[.digits]` of a float literal, as a rational;
at least one digit must be present overall. -/
def parseMantissa (cs : List Char) : Option ℚ :=
  match splitAtFirst ['.'] cs with
  | some (intPart, fracPart) =>
    match digitsToNatOpt intPart, digitsToNatOpt fracPart with
    | some (iv, ilen), some (fv, flen) =>
      if ilen + flen = 0 then none
      else some ((iv : ℚ) + (fv : ℚ) / (10 : ℚ) ^ flen)
    | _, _ => none
  | none => (digitsToNat cs).map (fun n => (n : ℚ))

/-- Python `float(s)` on a finite decimal literal with optional sign,
fraction and exponent (IEEE specials and underscores are out of scope). -/
def parseFloat (s : String) : Option ℚ :=
  let cs := s.trim.data
  let (neg, cs) := parseSign cs
  let mantExp : Option (ℚ × Int) :=
    match splitAtFirst ['e', 'E'] cs with
    | some (mant, expPart) =>
      match parseMantissa mant with
      | some m =>
        let (eneg, edigits) := parseSign expPart
        match digitsToNat edigits with
        | some e => some (m, if eneg then -(e : Int) else (e : Int))
        | none => none
      | none => none
    | none => (parseMantissa cs).map (fun m => (m, 0))
  mantExp.map (fun me =>
    let v := me.1 * (10 : ℚ) ^ me.2
    if neg then -v else v)

/-- Python `float(x)` applied to a JSON value: numbers pass through, strings
are parsed (ValueError on failure), booleans coerce to 0/1, the rest raise
TypeError. -/
def pyFloat : Json → Except Exn ℚ
  | .num q => .ok q
  | .str s =>
    match parseFloat s with
    | some q => .ok q
    | none => .error .valueError
  | .bool b => .ok (if b then 1 else 0)
  | _ => .error .typeError

/-- Outcome of one `requests.get(self.url, params={"query": query}, timeout=10)`
call followed by `raise_for_status()` and `.json()`: the four failure modes
named by the spec, or a successfully decoded body. -/
inductive HttpResult where
  | connError
  | timeout
  | badStatus (code : Nat)
  | decodeError
  | ok (body : Json)

/-- Whether the HTTP request failed (anything but a decoded 2xx body). -/
def HttpResult.isFailure : HttpResult → Bool
  | .ok _ => false
  | _ => true

/-- The empty result shape `{"data": {"result": []}}` substituted on failure. -/
def emptyResult : Json :=
  Json.obj [("data", Json.obj [("result", Json.arr [])])]

/-- `PrometheusMetrics._query_prometheus`: returns the decoded body on
success, and the empty result shape on any caught failure.  Never raises. -/
def queryPrometheus (r : HttpResult) : Json :=
  match r with
  | .ok body => body
  | _ => emptyResult

/-- Round to the nearest integer, ties to even (Python's float formatting
rounding mode, idealised over ℚ). -/
def roundHalfEven (q : ℚ) : ℤ :=
  let f := ⌊q⌋
  let r := q - f
  if r < 1/2 then f
  else if 1/2 < r then f + 1
  else if f % 2 = 0 then f else f + 1

/-- Two-digit zero-padded rendering of a number below 100. -/
def pad2 (n : Nat) : String :=
  if n < 10 then "0" ++ toString n else toString n

/-- Python `f"{q:.2f}"`, idealised over ℚ: round `q` to two decimal places
(ties to even) and render with exactly two fractional digits. -/
def formatTwoDec (q : ℚ) : String :=
  let n := roundHalfEven (q * 100)
  let sign := if n < 0 ∨ (n = 0 ∧ q < 0) then "-" else ""
  let m := n.natAbs
  sign ++ toString (m / 100) ++ "." ++ pad2 (m % 100)

/-- The shared unit-scaling loop of the two formatters: walk the unit list,
stopping at the first unit where the value is below `base`, dividing by
`base` otherwise; when the list is exhausted the value (now divided once per
listed unit) is paired with the overflow unit. -/
def formatLoop (base : ℚ) (lastUnit : String) : ℚ → List String → ℚ × String
  | v, [] => (v, lastUnit)
  | v, u :: rest =>
    if v < base then (v, u) else formatLoop base lastUnit (v / base) rest

/-- Scaled value and chosen unit of `PrometheusMetrics._format_bytes`. -/
def formatBytesParts (bytes_value : ℚ) : ℚ × String :=
  formatLoop 1024 "PB" bytes_value ["B", "KB", "MB", "GB", "TB"]

/-- `PrometheusMetrics._format_bytes`. -/
def formatBytes (bytes_value : ℚ) : String :=
  let p := formatBytesParts bytes_value
  formatTwoDec p.1 ++ " " ++ p.2

/-- Scaled value and chosen unit of
`PrometheusMetrics._format_bits_per_second`. -/
def formatBitsPerSecondParts (bps : ℚ) : ℚ × String :=
  formatLoop 1000 "Tbps" bps ["bps", "Kbps", "Mbps", "Gbps"]

/-- `PrometheusMetrics._format_bits_per_second`. -/
def formatBitsPerSecond (bps : ℚ) : String :=
  let p := formatBitsPerSecondParts bps
  formatTwoDec p.1 ++ " " ++ p.2

/-- The usage-percent expression shared verbatim by the disk and memory
collectors: `(used / capacity * 100) if capacity > 0 else 0` with
`used = capacity - free`. -/
def usagePercent (capacity free : ℚ) : ℚ :=
  let used := capacity - free
  if capacity > 0 then used / capacity * 100 else 0

/-- One entry of `disk_list`.  The source stores the raw JSON label values
for `device`/`mountpoint`; the field `inst` carries the source's
`"instance"` key (a Lean keyword). -/
structure DiskRecord where
  device : Json
  usage_percent : ℚ
  inst : String
  mount_point : Json
  size : String
  free : String
  used : String

/-- One entry of `cpu_list` (`inst` is the source's `"instance"` key). -/
structure CpuRecord where
  inst : String
  usage_percent : ℚ
  core_num : ℚ
  deriving DecidableEq, Repr

/-- One entry of `mem_list` (`inst` is the source's `"instance"` key). -/
structure MemRecord where
  inst : String
  total : String
  used : String
  usage_percent : ℚ
  deriving DecidableEq, Repr

/-- One entry of `net_list` (`inst` is the source's `"instance"` key). -/
structure NetRecord where
  inst : String
  download : String
  upload : String
  deriving DecidableEq, Repr

/-- The mutable lists of a `PrometheusMetrics` object. -/
structure MetricsState where
  node_list : List String
  disk_list : List DiskRecord
  cpu_list : List CpuRecord
  mem_list : List MemRecord
  net_list : List NetRecord

/-- `PrometheusMetrics.__init__`: all five lists start empty. -/
def MetricsState.init : MetricsState :=
  { node_list := [], disk_list := [], cpu_list := [], mem_list := [], net_list := [] }

/-- `result["data"]["result"]` as evaluated at every call site. -/
def extractResult (j : Json) : Except Exn Json := do
  (← j.getField "data").getField "result"

/-- `zip(result_a["data"]["result"], result_b["data"]["result"])` in Python
evaluation order: both subscript chains first, then both iterations, then
the positional pairing truncated to the shorter sequence. -/
def zipResults (ja jb : Json) : Except Exn (List (Json × Json)) := do
  let a ← extractResult ja
  let b ← extractResult jb
  let la ← a.pyIter
  let lb ← b.pyIter
  pure (la.zip lb)

/-- The `for ... in zip(...)` body shared by the four collectors: build a
record per pair and append it; an exception inside one iteration keeps the
records appended so far and aborts the loop. -/
def collectLoop {α : Type} (mk : Json → Json → Except Exn α) :
    List (Json × Json) → List α → List α × Option Exn
  | [], acc => (acc, none)
  | p :: rest, acc =>
    match mk p.1 p.2 with
    | .ok r => collectLoop mk rest (acc ++ [r])
    | .error e => (acc, some e)

/-- The record built by one iteration of `get_disk_metrics`, in source
evaluation order (values, then labels off the size sample). -/
def diskRecord (inst : String) (size free : Json) : Except Exn DiskRecord := do
  let size_value ← pyFloat (← (← size.getField "value").getIndex 1)
  let free_value ← pyFloat (← (← free.getField "value").getIndex 1)
  let used_value := size_value - free_value
  let device ← (← size.getField "metric").getField "device"
  let mount_point ← (← size.getField "metric").getField "mountpoint"
  pure { device := device
         usage_percent := usagePercent size_value free_value
         inst := inst
         mount_point := mount_point
         size := formatBytes size_value
         free := formatBytes free_value
         used := formatBytes used_value }

/-- The record built by one iteration of `get_cpu_metrics`: the backend's
usage value is stored raw (no clamping, no recomputation). -/
def cpuRecord (inst : String) (usage_percent core_num : Json) :
    Except Exn CpuRecord := do
  let usage_value ← pyFloat (← (← usage_percent.getField "value").getIndex 1)
  let core_num_value ← pyFloat (← (← core_num.getField "value").getIndex 1)
  pure { inst := inst, usage_percent := usage_value, core_num := core_num_value }

/-- The record built by one iteration of `get_mem_metrics`. -/
def memRecord (inst : String) (total avail : Json) : Except Exn MemRecord := do
  let total_value ← pyFloat (← (← total.getField "value").getIndex 1)
  let avail_value ← pyFloat (← (← avail.getField "value").getIndex 1)
  let used_value := total_value - avail_value
  pure { inst := inst
         total := formatBytes total_value
         used := formatBytes used_value
         usage_percent := usagePercent total_value avail_value }

/-- The record built by one iteration of `get_net_metrics`. -/
def netRecord (inst : String) (rx tx : Json) : Except Exn NetRecord := do
  let rx_value ← pyFloat (← (← rx.getField "value").getIndex 1)
  let tx_value ← pyFloat (← (← tx.getField "value").getIndex 1)
  pure { inst := inst
         download := formatBitsPerSecond rx_value
         upload := formatBitsPerSecond tx_value }

/-- `[node["metric"]["instance"] for node in result["data"]["result"]]`.
The source annotates `node_list: List[str]`, so a non-string instance label
is modelled as a TypeError. -/
def extractNodes (j : Json) : Except Exn (List String) := do
  let res ← extractResult j
  let items ← res.pyIter
  items.mapM (fun node => do
    match (← (← node.getField "metric").getField "instance") with
    | .str s => pure s
    | _ => throw Exn.typeError)

/-- `PrometheusMetrics.get_node_metrics`: replaces `node_list` wholesale on
success; on an exception inside the comprehension nothing is assigned. -/
def getNodeMetrics (st : MetricsState) (r : HttpResult) :
    MetricsState × Option Exn :=
  let result := queryPrometheus r
  match extractNodes result with
  | .ok nodes => ({ st with node_list := nodes }, none)
  | .error e => (st, some e)

/-- `PrometheusMetrics.get_disk_metrics`, with the two HTTP outcomes as
oracles for the size and free queries. -/
def getDiskMetrics (st : MetricsState) (inst : String)
    (rSize rFree : HttpResult) : MetricsState × Option Exn :=
  let result_size := queryPrometheus rSize
  let result_free := queryPrometheus rFree
  match zipResults result_size result_free with
  | .error e => (st, some e)
  | .ok pairs =>
    let out := collectLoop (diskRecord inst) pairs []
    ({ st with disk_list := st.disk_list ++ out.1 }, out.2)

/-- `PrometheusMetrics.get_cpu_metrics`. -/
def getCpuMetrics (st : MetricsState) (inst : String)
    (rUsage rCores : HttpResult) : MetricsState × Option Exn :=
  let result_usage := queryPrometheus rUsage
  let result_cores := queryPrometheus rCores
  match zipResults result_usage result_cores with
  | .error e => (st, some e)
  | .ok pairs =>
    let out := collectLoop (cpuRecord inst) pairs []
    ({ st with cpu_list := st.cpu_list ++ out.1 }, out.2)

/-- `PrometheusMetrics.get_mem_metrics`. -/
def getMemMetrics (st : MetricsState) (inst : String)
    (rTotal rAvail : HttpResult) : MetricsState × Option Exn :=
  let result_total := queryPrometheus rTotal
  let result_avail := queryPrometheus rAvail
  match zipResults result_total result_avail with
  | .error e => (st, some e)
  | .ok pairs =>
    let out := collectLoop (memRecord inst) pairs []
    ({ st with mem_list := st.mem_list ++ out.1 }, out.2)

/-- `PrometheusMetrics.get_net_metrics`. -/
def getNetMetrics (st : MetricsState) (inst : String)
    (rRx rTx : HttpResult) : MetricsState × Option Exn :=
  let result_rx := queryPrometheus rRx
  let result_tx := queryPrometheus rTx
  match zipResults result_rx result_tx with
  | .error e => (st, some e)
  | .ok pairs =>
    let out := collectLoop (netRecord inst) pairs []
    ({ st with net_list := st.net_list ++ out.1 }, out.2)

/-- The `email` section of the configuration (dataclass `EmailConfig`). -/
structure EmailConfig where
  smtp_server : String
  smtp_port : Nat
  from_name : String
  username : String
  password : String
  subject : String
  recipients : List String

/-- The filesystem oracle: maps a path to its byte contents when the path is
readable, `none` when opening or reading it raises. -/
abbrev Fs := String → Option (List Nat)

/-- `Path.name`: the final component of a path. -/
def pathName (p : String) : String :=
  (p.splitOn "/").getLastD p

/-- The observable parts of the `MIMEMultipart` message built by the sender:
headers, the single body part, and the attached parts as
(filename header, payload bytes) pairs (the base64 transfer encoding is a
bijection and is left implicit). -/
structure EmailMessage where
  from_header : String
  to_header : String
  subject : String
  content_type : String
  body : String
  attachments : List (String × List Nat)

/-- `EmailSender._create_message`. -/
def createMessage (cfg : EmailConfig) (subject body : String) (html : Bool) :
    EmailMessage :=
  { from_header := cfg.from_name ++ " <" ++ cfg.username ++ ">"
    to_header := String.intercalate ", " cfg.recipients
    subject := subject
    content_type := if html then "html" else "plain"
    body := body
    attachments := [] }

/-- `EmailSender._add_attachments`: each path is opened and attached; a
failure reading one attachment is caught per file, so that attachment is
skipped and the loop continues (`if not attachments` also covers `[]`). -/
def addAttachments (fs : Fs) (message : EmailMessage)
    (attachments : Option (List String)) : EmailMessage :=
  match attachments with
  | none => message
  | some paths =>
    paths.foldl (fun m p =>
      match fs p with
      | some bytes =>
        { m with attachments := m.attachments ++ [(pathName p, bytes)] }
      | none => m) message

/-- Outcomes of the four SMTP operations of one delivery attempt
(`SMTP(...)`, `starttls`, `login`, `sendmail`), as an oracle. -/
structure SmtpEnv where
  connect_ok : Bool
  starttls_ok : Bool
  login_ok : Bool
  sendmail_ok : Bool

/-- The SMTP session inside `_send_message`'s try block: connect, then
STARTTLS, then login, then submit; the first failing operation raises. -/
def smtpSession (env : SmtpEnv) : Except Exn Unit := do
  if env.connect_ok then pure () else throw Exn.smtpError
  if env.starttls_ok then pure () else throw Exn.smtpError
  if env.login_ok then pure () else throw Exn.smtpError
  if env.sendmail_ok then pure () else throw Exn.smtpError

/-- `EmailSender._send_message`: catches every session failure, returning
`false`; `true` only after a full successful submission. -/
def sendMessage (env : SmtpEnv) (_message : EmailMessage) : Bool :=
  match smtpSession env with
  | .ok _ => true
  | .error _ => false

/-- The try block of `EmailSender.send`: build the message, attach files,
deliver. -/
def sendBody (env : SmtpEnv) (fs : Fs) (cfg : EmailConfig)
    (subject body : String) (html : Bool)
    (attachments : Option (List String)) : Except Exn Bool :=
  let message := createMessage cfg subject body html
  let message := addAttachments fs message attachments
  pure (sendMessage env message)

/-- `EmailSender.send`: the try/except boundary converting any escaped
exception into a `false` return. -/
def send (env : SmtpEnv) (fs : Fs) (cfg : EmailConfig)
    (subject body : String) (html : Bool)
    (attachments : Option (List String)) : Bool :=
  match sendBody env fs cfg subject body html attachments with
  | .ok b => b
  | .error _ => false

/-- The environment of one `PrometheusNotice.run` invocation: the HTTP
outcome of every query the run can issue (per node for the paired category
queries), plus the oracles for the Excel writer, the jinja renderer, SMTP
and the filesystem. -/
structure RunEnv where
  node_resp : HttpResult
  disk_resps : String → HttpResult × HttpResult
  cpu_resps : String → HttpResult × HttpResult
  mem_resps : String → HttpResult × HttpResult
  net_resps : String → HttpResult × HttpResult
  excel_outcome : Option Exn
  html_outcome : Except Exn String
  smtp : SmtpEnv
  fs : Fs
  config : EmailConfig

/-- The four sequential per-node collection calls of `run`'s loop body; a
raised exception aborts the remaining calls for this node. -/
def collectNode (env : RunEnv) (st : MetricsState) (node : String) :
    MetricsState × Option Exn :=
  let r1 := getDiskMetrics st node (env.disk_resps node).1 (env.disk_resps node).2
  match r1.2 with
  | some e => (r1.1, some e)
  | none =>
    let r2 := getCpuMetrics r1.1 node (env.cpu_resps node).1 (env.cpu_resps node).2
    match r2.2 with
    | some e => (r2.1, some e)
    | none =>
      let r3 := getMemMetrics r2.1 node (env.mem_resps node).1 (env.mem_resps node).2
      match r3.2 with
      | some e => (r3.1, some e)
      | none =>
        getNetMetrics r3.1 node (env.net_resps node).1 (env.net_resps node).2

/-- `for node in self.prometheus_metrics.node_list: ...` — sequential, a
raised exception aborts the remaining nodes. -/
def collectAll (env : RunEnv) : MetricsState → List String →
    MetricsState × Option Exn
  | st, [] => (st, none)
  | st, node :: rest =>
    let r := collectNode env st node
    match r.2 with
    | some e => (r.1, some e)
    | none => collectAll env r.1 rest

/-- The try block of `PrometheusNotice.run`: discovery, the per-node
collection loop, the Excel report, the HTML render, then the email send.
The second component is `.ok b` when the send was reached (with `b` its
boolean result) and `.error e` when an earlier step raised. -/
def runBody (env : RunEnv) : MetricsState × Except Exn Bool :=
  let r0 := getNodeMetrics MetricsState.init env.node_resp
  match r0.2 with
  | some e => (r0.1, .error e)
  | none =>
    let r1 := collectAll env r0.1 r0.1.node_list
    match r1.2 with
    | some e => (r1.1, .error e)
    | none =>
      match env.excel_outcome with
      | some e => (r1.1, .error e)
      | none =>
        match env.html_outcome with
        | .error e => (r1.1, .error e)
        | .ok html_report =>
          (r1.1, .ok (send env.smtp env.fs env.config env.config.subject
            html_report true (some ["report.xlsx"])))

/-- `PrometheusNotice.run`: the catch-all boundary.  The second component is
`some b` when the email send was attempted (returning `b`) and `none` when
an exception was logged and the run ended; no exception escapes. -/
def run (env : RunEnv) : MetricsState × Option Bool :=
  match runBody env with
  | (st, .ok b) => (st, some b)
  | (st, .error _) => (st, none)

/-- A conforming Prometheus response body holding the given samples. -/
def mkResp (samples : List Json) : Json :=
  Json.obj [("data", Json.obj [("result", Json.arr samples)])]

/-- A minimal well-formed sample whose value is the given number. -/
def valueSample (v : ℚ) : Json :=
  Json.obj [("value", Json.arr [Json.num 0, Json.num v])]

/-- A sample whose value is the given string (Prometheus encodes sample
values as strings, which the collectors pass through `float`). -/
def strValueSample (s : String) : Json :=
  Json.obj [("value", Json.arr [Json.num 0, Json.str s])]

/-- A well-formed size-query sample: device and mountpoint labels plus a
numeric value. -/
def sizeSample (dev mp : String) (v : ℚ) : Json :=
  Json.obj [("metric", Json.obj [("device", Json.str dev),
                                 ("mountpoint", Json.str mp)]),
            ("value", Json.arr [Json.num 0, Json.num v])]

/-- A decoded 2xx body that is valid JSON but does not conform to the
expected `{"data": {"result": [...]}}` shape. -/
def nonConformingBody : Json :=
  Json.obj [("status", Json.str "ok")]

/-- A concrete email configuration for closed instantiations. -/
def cfgW : EmailConfig :=
  { smtp_server := "smtp.example.com"
    smtp_port := 587
    from_name := "Monitor"
    username := "monitor@example.com"
    password := "pw"
    subject := "Prometheus Notice"
    recipients := ["ops@example.com"] }

/-- A concrete run environment whose Excel write fails while everything
before it succeeds (discovery yields no nodes). -/
def envW : RunEnv :=
  { node_resp := HttpResult.connError
    disk_resps := fun _ => (HttpResult.connError, HttpResult.connError)
    cpu_resps := fun _ => (HttpResult.connError, HttpResult.connError)
    mem_resps := fun _ => (HttpResult.connError, HttpResult.connError)
    net_resps := fun _ => (HttpResult.connError, HttpResult.connError)
    excel_outcome := some Exn.osError
    html_outcome := Except.ok ""
    smtp := { connect_ok := true, starttls_ok := true,
              login_ok := true, sendmail_ok := true }
    fs := fun _ => none
    config := cfgW }

lemma extractResult_empty : extractResult emptyResult = .ok (Json.arr []) := rfl

lemma pyIter_arr (l : List Json) : (Json.arr l).pyIter = .ok l := rfl

lemma zipResults_mk (la lb : List Json) :
    zipResults (mkResp la) (mkResp lb) = .ok (la.zip lb) := by
  simp [zipResults, extractResult, mkResp, Json.getField, Json.pyIter,
    bind, Except.bind, pure, Except.pure, List.find?]

lemma zipResults_emptyLeft (jb : Json) (pairs : List (Json × Json))
    (h : zipResults emptyResult jb = .ok pairs) : pairs = [] := by
  rcases hb : extractResult jb with e | b
  · simp [zipResults, extractResult_empty, hb, bind, Except.bind] at h
  · rcases hi : b.pyIter with e | lb
    · simp [zipResults, extractResult_empty, hb, hi, pyIter_arr,
        bind, Except.bind, pure, Except.pure] at h
    · simp [zipResults, extractResult_empty, hb, hi, pyIter_arr,
        bind, Except.bind, pure, Except.pure] at h
      exact h

lemma zipResults_emptyRight (ja : Json) (pairs : List (Json × Json))
    (h : zipResults ja emptyResult = .ok pairs) : pairs = [] := by
  rcases ha : extractResult ja with e | a
  · simp [zipResults, extractResult_empty, ha, bind, Except.bind] at h
  · rcases hi : a.pyIter with e | la
    · simp [zipResults, extractResult_empty, ha, hi, pyIter_arr,
        bind, Except.bind, pure, Except.pure] at h
    · simp [zipResults, extractResult_empty, ha, hi, pyIter_arr,
        bind, Except.bind, pure, Except.pure, List.zip_nil_right] at h
      exact h

lemma collectLoop_map {α β : Type} (mk : Json → Json → Except Exn α)
    (f : β → Json × Json) (g : β → α)
    (h : ∀ b, mk (f b).1 (f b).2 = .ok (g b)) :
    ∀ (l : List β) (acc : List α),
      collectLoop mk (l.map f) acc = (acc ++ l.map g, none) := by
  intro l
  induction l with
  | nil => intro acc; simp [collectLoop]
  | cons b rest ih =>
    intro acc
    simp only [List.map_cons, collectLoop, h b]
    rw [ih (acc ++ [g b])]
    simp

lemma diskRecord_eval (inst dev mp : String) (c v : ℚ) :
    diskRecord inst (sizeSample dev mp c) (valueSample v) =
      .ok { device := Json.str dev
            usage_percent := usagePercent c v
            inst := inst
            mount_point := Json.str mp
            size := formatBytes c
            free := formatBytes v
            used := formatBytes (c - v) } := by
  simp [diskRecord, sizeSample, valueSample, Json.getField, Json.getIndex, pyFloat,
    List.find?, List.get?, bind, Except.bind, pure, Except.pure]

lemma cpuRecord_eval (inst : String) (u n : ℚ) :
    cpuRecord inst (valueSample u) (valueSample n) =
      .ok { inst := inst, usage_percent := u, core_num := n } := by
  simp [cpuRecord, valueSample, Json.getField, Json.getIndex, pyFloat,
    List.find?, List.get?, bind, Except.bind, pure, Except.pure]

lemma memRecord_eval (inst : String) (c v : ℚ) :
    memRecord inst (valueSample c) (valueSample v) =
      .ok { inst := inst
            total := formatBytes c
            used := formatBytes (c - v)
            usage_percent := usagePercent c v } := by
  simp [memRecord, valueSample, Json.getField, Json.getIndex, pyFloat,
    List.find?, List.get?, bind, Except.bind, pure, Except.pure]

lemma netRecord_eval (inst : String) (rx tx : ℚ) :
    netRecord inst (valueSample rx) (valueSample tx) =
      .ok { inst := inst
            download := formatBitsPerSecond rx
            upload := formatBitsPerSecond tx } := by
  simp [netRecord, valueSample, Json.getField, Json.getIndex, pyFloat,
    List.find?, List.get?, bind, Except.bind, pure, Except.pure]

lemma attachFold (fs : Fs) : ∀ (paths : List String) (m : EmailMessage),
    paths.foldl (fun m p =>
      match fs p with
      | some bytes =>
        { m with attachments := m.attachments ++ [(pathName p, bytes)] }
      | none => m) m =
    { m with attachments := m.attachments ++
        paths.filterMap (fun p => (fs p).map (fun bytes => (pathName p, bytes))) } := by
  intro paths
  induction paths with
  | nil => intro m; simp
  | cons p rest ih =>
    intro m
    rcases hfp : fs p with _ | bytes
    · simp only [List.foldl_cons, hfp]
      rw [ih m]
      simp [List.filterMap_cons, hfp]
    · simp only [List.foldl_cons, hfp]
      rw [ih]
      simp [List.filterMap_cons, hfp]

lemma addAttachments_eq (fs : Fs) (m : EmailMessage) (paths : List String) :
    addAttachments fs m (some paths) =
      { m with attachments := m.attachments ++
          paths.filterMap (fun p => (fs p).map (fun bytes => (pathName p, bytes))) } := by
  simp only [addAttachments]
  exact attachFold fs paths m

lemma usagePercent_nonneg (c f : ℚ) (h1 : f ≤ c) :
    0 ≤ usagePercent c f := by
  unfold usagePercent
  split
  · have hc : (0:ℚ) < c := by assumption
    have : (0:ℚ) ≤ c - f := by linarith
    positivity
  · exact le_refl 0

lemma usagePercent_le_100 (c f : ℚ) (h0 : 0 ≤ f) :
    usagePercent c f ≤ 100 := by
  unfold usagePercent
  split
  · rename_i hc
    have h2 : (c - f) / c ≤ 1 := (div_le_one hc).mpr (by linarith)
    linarith
  · norm_num

/-- C1 (counterexample): a 2xx response whose decoded JSON body lacks the
`data` key is returned verbatim by `_query_prometheus` — not the empty
result shape — and the caller `get_node_metrics` then raises a KeyError,
contradicting the claim that every non-conforming response yields the empty
shape with no exception. -/
theorem query_nonconforming_counterexample :
    queryPrometheus (HttpResult.ok nonConformingBody) ≠ emptyResult ∧
    (getNodeMetrics MetricsState.init (HttpResult.ok nonConformingBody)).2 =
      some Exn.keyError := by
  constructor
  · simp [queryPrometheus, nonConformingBody, emptyResult]
  · simp [getNodeMetrics, queryPrometheus, nonConformingBody, extractNodes, extractResult,
      Json.getField, List.find?, bind, Except.bind, pure, Except.pure]

/-- C1 (amended): for every failed HTTP request (connection error, timeout,
non-2xx status, or JSON decoding failure) the query call returns the empty
result shape and propagates no exception, discovery replaces the node list
with the empty list, and each paired collector appends no records and
raises nothing (provided the partner response's `data.result` chain is
itself readable); a 2xx response with a non-conforming JSON body, however,
is returned verbatim and may raise in the caller. -/
theorem query_failure_yields_empty_and_no_records (r : HttpResult)
    (h : r.isFailure = true) :
    queryPrometheus r = emptyResult ∧
    (∀ st, getNodeMetrics st r = ({ st with node_list := [] }, none)) ∧
    (∀ st inst r2,
      (zipResults (queryPrometheus r) (queryPrometheus r2)).isOk = true →
        getDiskMetrics st inst r r2 = (st, none) ∧
        getCpuMetrics st inst r r2 = (st, none) ∧
        getMemMetrics st inst r r2 = (st, none) ∧
        getNetMetrics st inst r r2 = (st, none)) ∧
    (∀ st inst r2,
      (zipResults (queryPrometheus r2) (queryPrometheus r)).isOk = true →
        getDiskMetrics st inst r2 r = (st, none) ∧
        getCpuMetrics st inst r2 r = (st, none) ∧
        getMemMetrics st inst r2 r = (st, none) ∧
        getNetMetrics st inst r2 r = (st, none)) := by
  have hq : queryPrometheus r = emptyResult := by
    cases r
    · rfl
    · rfl
    · rfl
    · rfl
    · simp [HttpResult.isFailure] at h
  refine ⟨hq, ?_, ?_, ?_⟩
  · intro st
    simp [getNodeMetrics, hq, extractNodes, extractResult_empty, pyIter_arr,
      bind, Except.bind, pure, Except.pure, List.mapM, List.mapM.loop]
  · intro st inst r2 hok
    rcases hz : zipResults (queryPrometheus r) (queryPrometheus r2) with e | pairs
    · rw [hz] at hok
      simp [Except.isOk, Except.toBool] at hok
    · have hz' := hz
      rw [hq] at hz'
      have hp := zipResults_emptyLeft _ _ hz'
      subst hp
      refine ⟨?_, ?_, ?_, ?_⟩ <;>
        simp [getDiskMetrics, getCpuMetrics, getMemMetrics, getNetMetrics, hz, collectLoop]
  · intro st inst r2 hok
    rcases hz : zipResults (queryPrometheus r2) (queryPrometheus r) with e | pairs
    · rw [hz] at hok
      simp [Except.isOk, Except.toBool] at hok
    · have hz' := hz
      rw [hq] at hz'
      have hp := zipResults_emptyRight _ _ hz'
      subst hp
      refine ⟨?_, ?_, ?_, ?_⟩ <;>
        simp [getDiskMetrics, getCpuMetrics, getMemMetrics, getNetMetrics, hz, collectLoop]

/-- C1 (witness): a connection error on both disk queries leaves the state
untouched with no exception. -/
theorem query_failure_yields_empty_and_no_records_witness :
    getDiskMetrics MetricsState.init "node1" HttpResult.connError HttpResult.connError =
      (MetricsState.init, none) :=
  ((query_failure_yields_empty_and_no_records HttpResult.connError rfl).2.2.1
    MetricsState.init "node1" HttpResult.connError (by rfl)).1

/-- C2: for 0 ≤ free ≤ capacity the usage percent computed by the disk and
memory collectors equals (capacity−free)/capacity×100 when capacity > 0 and
0 otherwise, and always lies in [0,100]; the disk and memory record
builders store exactly this value. -/
theorem usage_percent_formula_and_range (c f : ℚ) (h0 : 0 ≤ f) (h1 : f ≤ c) :
    usagePercent c f = (if c > 0 then (c - f) / c * 100 else 0) ∧
    0 ≤ usagePercent c f ∧ usagePercent c f ≤ 100 ∧
    (∀ inst dev mp, Except.map (fun r => r.usage_percent)
        (diskRecord inst (sizeSample dev mp c) (valueSample f)) =
      .ok (usagePercent c f)) ∧
    (∀ inst, Except.map (fun r => r.usage_percent)
        (memRecord inst (valueSample c) (valueSample f)) =
      .ok (usagePercent c f)) := by
  refine ⟨rfl, usagePercent_nonneg c f h1, usagePercent_le_100 c f h0, ?_, ?_⟩
  · intro inst dev mp
    rw [diskRecord_eval]
    rfl
  · intro inst
    rw [memRecord_eval]
    rfl

/-- C2 (witness): capacity 100 and free 25 give a percent within [0,100]. -/
theorem usage_percent_formula_and_range_witness :
    0 ≤ usagePercent 100 25 ∧ usagePercent 100 25 ≤ 100 :=
  ⟨(usage_percent_formula_and_range 100 25 (by norm_num) (by norm_num)).2.1,
   (usage_percent_formula_and_range 100 25 (by norm_num) (by norm_num)).2.2.1⟩

/-- C3 (counterexample): a CPU sample of 150 is stored as usage_percent 150,
outside [0,100] — no clamping is performed on stored percents. -/
theorem stored_usage_percent_unclamped_counterexample :
    ((getCpuMetrics MetricsState.init "node1"
        (HttpResult.ok (mkResp [valueSample 150]))
        (HttpResult.ok (mkResp [valueSample 4]))).1.cpu_list.map
          (fun r => r.usage_percent)) = [150] ∧
    ¬ ((150 : ℚ) ≤ 100) := by
  constructor
  · simp [getCpuMetrics, queryPrometheus, zipResults, extractResult, Json.getField,
      Json.pyIter, mkResp, valueSample, collectLoop, cpuRecord, Json.getIndex, pyFloat,
      MetricsState.init, List.find?, List.get?, bind, Except.bind, pure, Except.pure,
      List.zip]
  · norm_num

/-- C3 (amended): the disk/memory usage percent is 0 whenever the capacity
(denominator) is 0, and lies in [0,100] whenever the samples satisfy
0 ≤ free ≤ capacity; no clamping is applied to out-of-range samples, and
the CPU collector stores the backend's usage value entirely unmodified. -/
theorem usage_percent_zero_capacity_and_conditional_range (c f : ℚ)
    (h0 : 0 ≤ f) (h1 : f ≤ c) :
    usagePercent 0 f = 0 ∧
    0 ≤ usagePercent c f ∧ usagePercent c f ≤ 100 ∧
    (∀ inst u n, cpuRecord inst (valueSample u) (valueSample n) =
      .ok { inst := inst, usage_percent := u, core_num := n }) := by
  exact ⟨by simp [usagePercent], usagePercent_nonneg c f h1, usagePercent_le_100 c f h0,
    fun inst u n => cpuRecord_eval inst u n⟩

/-- C3 (witness): zero capacity yields percent 0. -/
theorem usage_percent_zero_capacity_witness : usagePercent 0 1 = 0 :=
  (usage_percent_zero_capacity_and_conditional_range 1 1 (by norm_num) (le_refl 1)).1

/-- C4: the disk collector pairs the size and free result lists positionally,
appends exactly min(len size, len free) records, takes device and mount
point from the size-query sample of each pair, and computes
used = size − free and percent = used/size×100 (0 if size is 0). -/
theorem disk_positional_pairing (st : MetricsState) (inst : String)
    (sizes : List (String × String × ℚ)) (frees : List ℚ) :
    getDiskMetrics st inst
        (HttpResult.ok (mkResp (sizes.map (fun t => sizeSample t.1 t.2.1 t.2.2))))
        (HttpResult.ok (mkResp (frees.map valueSample))) =
      ({ st with disk_list := st.disk_list ++ (sizes.zip frees).map (fun p =>
          { device := Json.str p.1.1
            usage_percent := usagePercent p.1.2.2 p.2
            inst := inst
            mount_point := Json.str p.1.2.1
            size := formatBytes p.1.2.2
            free := formatBytes p.2
            used := formatBytes (p.1.2.2 - p.2) }) }, none) ∧
    (getDiskMetrics st inst
        (HttpResult.ok (mkResp (sizes.map (fun t => sizeSample t.1 t.2.1 t.2.2))))
        (HttpResult.ok (mkResp (frees.map valueSample)))).1.disk_list.length =
      st.disk_list.length + min sizes.length frees.length := by
  have hz := zipResults_mk (sizes.map (fun t => sizeSample t.1 t.2.1 t.2.2))
    (frees.map valueSample)
  have hmap : (sizes.map (fun t => sizeSample t.1 t.2.1 t.2.2)).zip (frees.map valueSample)
      = (sizes.zip frees).map
          (Prod.map (fun t => sizeSample t.1 t.2.1 t.2.2) valueSample) := by
    rw [List.zip_map]
  have hloop := collectLoop_map (diskRecord inst)
      (Prod.map (fun t => sizeSample t.1 t.2.1 t.2.2) valueSample)
      (fun p => { device := Json.str p.1.1
                  usage_percent := usagePercent p.1.2.2 p.2
                  inst := inst
                  mount_point := Json.str p.1.2.1
                  size := formatBytes p.1.2.2
                  free := formatBytes p.2
                  used := formatBytes (p.1.2.2 - p.2) })
      (fun p => by simpa [Prod.map] using diskRecord_eval inst p.1.1 p.1.2.1 p.1.2.2 p.2)
      (sizes.zip frees) []
  have main : getDiskMetrics st inst
      (HttpResult.ok (mkResp (sizes.map (fun t => sizeSample t.1 t.2.1 t.2.2))))
      (HttpResult.ok (mkResp (frees.map valueSample))) =
    ({ st with disk_list := st.disk_list ++ (sizes.zip frees).map (fun p =>
        { device := Json.str p.1.1
          usage_percent := usagePercent p.1.2.2 p.2
          inst := inst
          mount_point := Json.str p.1.2.1
          size := formatBytes p.1.2.2
          free := formatBytes p.2
          used := formatBytes (p.1.2.2 - p.2) }) }, none) := by
    simp only [getDiskMetrics, queryPrometheus, hz, hmap, hloop, List.nil_append]
  refine ⟨main, ?_⟩
  rw [main]
  simp [List.length_append, List.length_map, List.length_zip]

/-- C5 helper: any value at least 1024^5 falls through the whole unit list,
is divided once per listed unit, and lands on the overflow unit PB. -/
lemma formatBytesParts_large (q : ℚ) (h : 1024^5 ≤ q) :
    formatBytesParts q = (q / 1024^5, "PB") := by
  have p : (0:ℚ) < 1024 := by norm_num
  have d1 : (1024:ℚ)^4 ≤ q / 1024 := by
    rw [le_div_iff₀ p]
    have e : (1024:ℚ)^4 * 1024 = 1024^5 := by ring
    rw [e]; exact h
  have d2 : (1024:ℚ)^3 ≤ q / 1024 / 1024 := by
    rw [le_div_iff₀ p]
    have e : (1024:ℚ)^3 * 1024 = 1024^4 := by ring
    rw [e]; exact d1
  have d3 : (1024:ℚ)^2 ≤ q / 1024 / 1024 / 1024 := by
    rw [le_div_iff₀ p]
    have e : (1024:ℚ)^2 * 1024 = 1024^3 := by ring
    rw [e]; exact d2
  have d4 : (1024:ℚ) ≤ q / 1024 / 1024 / 1024 / 1024 := by
    rw [le_div_iff₀ p]
    have e : (1024:ℚ) * 1024 = 1024^2 := by ring
    rw [e]; exact d3
  have c0 : ¬ q < 1024 := by
    have : (1024:ℚ) ≤ 1024^5 := by norm_num
    linarith
  have c1 : ¬ q / 1024 < 1024 := by
    have : (1024:ℚ) ≤ 1024^4 := by norm_num
    linarith
  have c2 : ¬ q / 1024 / 1024 < 1024 := by
    have : (1024:ℚ) ≤ 1024^3 := by norm_num
    linarith
  have c3 : ¬ q / 1024 / 1024 / 1024 < 1024 := by
    have : (1024:ℚ) ≤ 1024^2 := by norm_num
    linarith
  have c4 : ¬ q / 1024 / 1024 / 1024 / 1024 < 1024 := not_lt.mpr d4
  simp only [formatBytesParts, formatLoop, if_neg c0, if_neg c1, if_neg c2, if_neg c3,
    if_neg c4]
  rw [div_div, div_div, div_div, div_div]
  norm_num

/-- C5: the byte formatter divides by 1024 across B, KB, MB, GB, TB and
falls through to PB, to two decimal places, matching the spec's test
vectors; every value ≥ 1024^5 renders in PB with magnitude ≥ 1; the
bitrate formatter divides by 1000 across bps, Kbps, Mbps, Gbps, falling
through to Tbps, matching its test vectors. -/
theorem unit_formatters_spec (q : ℚ) (h : 1024^5 ≤ q) :
    formatBytes 0 = "0.00 B" ∧ formatBytes 1024 = "1.00 KB" ∧
    formatBytes 1536 = "1.50 KB" ∧ formatBytes (1024^4) = "1.00 TB" ∧
    (formatBytesParts q).2 = "PB" ∧ 1 ≤ (formatBytesParts q).1 ∧
    formatBytes q = formatTwoDec (q / 1024^5) ++ " PB" ∧
    formatBitsPerSecond 0 = "0.00 bps" ∧ formatBitsPerSecond 1000 = "1.00 Kbps" ∧
    formatBitsPerSecond 1000000 = "1.00 Mbps" := by
  have hp := formatBytesParts_large q h
  refine ⟨?_, ?_, ?_, ?_, by rw [hp], ?_, ?_, ?_, ?_, ?_⟩
  · norm_num [formatBytes, formatBytesParts, formatLoop, formatTwoDec, roundHalfEven, pad2]
    rfl
  · norm_num [formatBytes, formatBytesParts, formatLoop, formatTwoDec, roundHalfEven, pad2]
    rfl
  · norm_num [formatBytes, formatBytesParts, formatLoop, formatTwoDec, roundHalfEven, pad2]
    rfl
  · norm_num [formatBytes, formatBytesParts, formatLoop, formatTwoDec, roundHalfEven, pad2]
    rfl
  · rw [hp]
    show (1:ℚ) ≤ q / 1024^5
    rw [le_div_iff₀ (by positivity)]
    linarith
  · simp only [formatBytes, hp]
    rw [String.append_assoc]
    rfl
  · norm_num [formatBitsPerSecond, formatBitsPerSecondParts, formatLoop, formatTwoDec,
      roundHalfEven, pad2]
    rfl
  · norm_num [formatBitsPerSecond, formatBitsPerSecondParts, formatLoop, formatTwoDec,
      roundHalfEven, pad2]
    rfl
  · norm_num [formatBitsPerSecond, formatBitsPerSecondParts, formatLoop, formatTwoDec,
      roundHalfEven, pad2]
    rfl

/-- C5 (witness): 1024^5 itself renders in PB with magnitude ≥ 1. -/
theorem unit_formatters_spec_witness :
    (formatBytesParts (1024^5)).2 = "PB" ∧ 1 ≤ (formatBytesParts (1024^5)).1 :=
  ⟨(unit_formatters_spec (1024^5) (le_refl _)).2.2.2.2.1,
   (unit_formatters_spec (1024^5) (le_refl _)).2.2.2.2.2.1⟩

/-- C6 (counterexample): with a filesystem where reading the attachment
fails and a fully working SMTP session, `send` returns true — an attachment
handling failure is skipped, not converted to a false return as the claim
states. -/
theorem send_attachment_failure_not_false_counterexample :
    (fun _ => none : Fs) "report.xlsx" = none ∧
    send { connect_ok := true, starttls_ok := true, login_ok := true, sendmail_ok := true }
      (fun _ => none) cfgW "subject" "body" false (some ["report.xlsx"]) = true := by
  constructor
  · rfl
  · rfl

/-- C6 (amended): `send` always returns a boolean and no exception escapes
its try block; it returns true exactly when the SMTP connect, STARTTLS,
login and submission all succeed (message construction is total for string
inputs, and attachment read failures are skipped without affecting the
result, rather than being converted to false). -/
theorem send_boolean_boundary (env : SmtpEnv) (fs : Fs) (cfg : EmailConfig)
    (subject body : String) (html : Bool) (attachments : Option (List String)) :
    (∀ e : Exn, sendBody env fs cfg subject body html attachments ≠ Except.error e) ∧
    (send env fs cfg subject body html attachments = true ↔
      env.connect_ok = true ∧ env.starttls_ok = true ∧
      env.login_ok = true ∧ env.sendmail_ok = true) := by
  constructor
  · intro e
    simp [sendBody, pure, Except.pure]
  · rcases env with ⟨c, s, l, m⟩
    cases c <;> cases s <;> cases l <;> cases m <;>
      simp [send, sendBody, sendMessage, smtpSession, bind, Except.bind, pure, Except.pure,
        throw, throwThe, MonadExceptOf.throw]

/-- C7: if discovery, any per-node collection step, the Excel report, or the
HTML render raises, the run attempts no email send (`(run env).2 = none`)
and terminates without re-raising (`run` is total by construction). -/
theorem run_no_send_after_failure (env : RunEnv)
    (h : (getNodeMetrics MetricsState.init env.node_resp).2.isSome = true
       ∨ (collectAll env (getNodeMetrics MetricsState.init env.node_resp).1
            (getNodeMetrics MetricsState.init env.node_resp).1.node_list).2.isSome = true
       ∨ env.excel_outcome.isSome = true
       ∨ env.html_outcome.isOk = false) :
    (run env).2 = none := by
  unfold run runBody
  rcases h0 : (getNodeMetrics MetricsState.init env.node_resp).2 with _ | e0
  · rcases h1 : (collectAll env (getNodeMetrics MetricsState.init env.node_resp).1
        (getNodeMetrics MetricsState.init env.node_resp).1.node_list).2 with _ | e1
    · rcases h2 : env.excel_outcome with _ | e2
      · rcases h3 : env.html_outcome with e3 | s
        · simp [h0, h1, h2, h3]
        · rw [h0, h1, h2, h3] at h
          simp [Except.isOk, Except.toBool] at h
      · simp [h0, h1, h2]
    · simp [h0, h1]
  · simp [h0]

/-- C7 (witness): a run whose Excel write fails sends no email. -/
theorem run_no_send_after_failure_witness : (run envW).2 = none :=
  run_no_send_after_failure envW (Or.inr (Or.inr (Or.inl rfl)))

/-- C8: unreadable attachments are skipped — the composed message carries
exactly the readable attachments (in order), keeps its body and content
type, and the send result is unchanged by attachment read failures. -/
theorem attachment_skip_preserves_message_and_send (env : SmtpEnv) (fs : Fs)
    (cfg : EmailConfig) (subject body : String) (html : Bool) (atts : List String) :
    (addAttachments fs (createMessage cfg subject body html) (some atts)).attachments =
      atts.filterMap (fun p => (fs p).map (fun bytes => (pathName p, bytes))) ∧
    (addAttachments fs (createMessage cfg subject body html) (some atts)).body = body ∧
    (addAttachments fs (createMessage cfg subject body html) (some atts)).content_type =
      (if html then "html" else "plain") ∧
    send env fs cfg subject body html (some atts) =
      send env fs cfg subject body html none := by
  rw [addAttachments_eq]
  exact ⟨by simp [createMessage], rfl, rfl, rfl⟩

/-- C9: each per-category collector leaves the node list and the other three
category lists unchanged, for every state, instance and pair of backend
responses. -/
theorem collectors_frame_property (st : MetricsState) (inst : String)
    (r1 r2 : HttpResult) :
    ((getDiskMetrics st inst r1 r2).1.node_list = st.node_list ∧
     (getDiskMetrics st inst r1 r2).1.cpu_list = st.cpu_list ∧
     (getDiskMetrics st inst r1 r2).1.mem_list = st.mem_list ∧
     (getDiskMetrics st inst r1 r2).1.net_list = st.net_list) ∧
    ((getCpuMetrics st inst r1 r2).1.node_list = st.node_list ∧
     (getCpuMetrics st inst r1 r2).1.disk_list = st.disk_list ∧
     (getCpuMetrics st inst r1 r2).1.mem_list = st.mem_list ∧
     (getCpuMetrics st inst r1 r2).1.net_list = st.net_list) ∧
    ((getMemMetrics st inst r1 r2).1.node_list = st.node_list ∧
     (getMemMetrics st inst r1 r2).1.disk_list = st.disk_list ∧
     (getMemMetrics st inst r1 r2).1.cpu_list = st.cpu_list ∧
     (getMemMetrics st inst r1 r2).1.net_list = st.net_list) ∧
    ((getNetMetrics st inst r1 r2).1.node_list = st.node_list ∧
     (getNetMetrics st inst r1 r2).1.disk_list = st.disk_list ∧
     (getNetMetrics st inst r1 r2).1.cpu_list = st.cpu_list ∧
     (getNetMetrics st inst r1 r2).1.mem_list = st.mem_list) := by
  rcases hz : zipResults (queryPrometheus r1) (queryPrometheus r2) with e | pairs <;>
    simp [getDiskMetrics, getCpuMetrics, getMemMetrics, getNetMetrics, hz]

/-- C10: all five lists start empty at construction; each collector only
appends to its own list (its contribution is independent of the prior
state, so running the same collector twice appends a second copy), while
node discovery replaces the node list wholesale with the extracted
instances whenever the extraction succeeds. -/
theorem record_lists_append_only (st : MetricsState) (inst : String)
    (r1 r2 rn : HttpResult) (nodes : List String)
    (h : extractNodes (queryPrometheus rn) = .ok nodes) :
    (MetricsState.init.node_list = [] ∧ MetricsState.init.disk_list = [] ∧
     MetricsState.init.cpu_list = [] ∧ MetricsState.init.mem_list = [] ∧
     MetricsState.init.net_list = []) ∧
    (getNodeMetrics st rn).1.node_list = nodes ∧
    (getDiskMetrics st inst r1 r2).1.disk_list =
      st.disk_list ++ (getDiskMetrics MetricsState.init inst r1 r2).1.disk_list ∧
    (getCpuMetrics st inst r1 r2).1.cpu_list =
      st.cpu_list ++ (getCpuMetrics MetricsState.init inst r1 r2).1.cpu_list ∧
    (getMemMetrics st inst r1 r2).1.mem_list =
      st.mem_list ++ (getMemMetrics MetricsState.init inst r1 r2).1.mem_list ∧
    (getNetMetrics st inst r1 r2).1.net_list =
      st.net_list ++ (getNetMetrics MetricsState.init inst r1 r2).1.net_list ∧
    (getDiskMetrics (getDiskMetrics st inst r1 r2).1 inst r1 r2).1.disk_list =
      st.disk_list ++ (getDiskMetrics MetricsState.init inst r1 r2).1.disk_list
        ++ (getDiskMetrics MetricsState.init inst r1 r2).1.disk_list := by
  have happ : ∀ s : MetricsState, (getDiskMetrics s inst r1 r2).1.disk_list =
      s.disk_list ++ (getDiskMetrics MetricsState.init inst r1 r2).1.disk_list := by
    intro s
    rcases hz : zipResults (queryPrometheus r1) (queryPrometheus r2) with e | pairs <;>
      simp [getDiskMetrics, hz, MetricsState.init]
  refine ⟨⟨rfl, rfl, rfl, rfl, rfl⟩, ?_, happ st, ?_, ?_, ?_, ?_⟩
  · simp [getNodeMetrics, h]
  · rcases hz : zipResults (queryPrometheus r1) (queryPrometheus r2) with e | pairs <;>
      simp [getCpuMetrics, hz, MetricsState.init]
  · rcases hz : zipResults (queryPrometheus r1) (queryPrometheus r2) with e | pairs <;>
      simp [getMemMetrics, hz, MetricsState.init]
  · rcases hz : zipResults (queryPrometheus r1) (queryPrometheus r2) with e | pairs <;>
      simp [getNetMetrics, hz, MetricsState.init]
  · rw [happ, happ]

/-- C10 (witness): discovery on a failed request replaces the node list with
the empty list, whatever it held before. -/
theorem record_lists_append_only_witness :
    (getNodeMetrics MetricsState.init HttpResult.connError).1.node_list = [] :=
  (record_lists_append_only MetricsState.init "node1" HttpResult.connError
    HttpResult.connError HttpResult.connError [] (by rfl)).2.1
